import Mathlib

/-!
Shallow embedding of `sch_simulation/helsim_FUNC_KK/events.py`.

Conventions used throughout:
* numpy float arrays are modelled as `List ℚ`, integer worm-count arrays as `List ℤ`,
  the vaccine-status array `sv` as `List ℕ` (it only ever holds 0/1 and is used as an
  index into the length-2 parameter vectors `v1`/`v2`/`v3`).
* every `np.random.*` draw is an explicit input: a named rational for a single draw, or
  a stream `ℕ → ℚ` consumed in the same order as the corresponding numpy call.
* external collaborators that are not part of this file's source
  (`getLifeSpans`, `getSetOfEggCounts`, the gamma/uniform samplers, `np.exp`,
  `np.random.binomial`, `random.sample`) are supplied as oracle function arguments.
* vectorized masked assignments (`arr[mask] = v`, `arr[idx] -= v` with distinct
  ascending indices as produced by `np.where`) are translated index-wise with
  `List.mapIdx` / sequential `List.set` folds; `np.put`, whose repeated indices are
  written sequentially so that the last write wins, is translated as a `List.foldl`
  of `List.set` in draw order.
* `List.getD`/`List.set` are no-ops out of range where numpy would raise `IndexError`;
  every concrete input used below stays in range, and theorems that depend on
  in-range behaviour carry explicit bounds hypotheses.
-/

/-- `np.argmax` over a boolean vector: index of the first `true`, and 0 when the
vector has no `true` (numpy returns the first occurrence of the maximum). -/
def argmaxBool (l : List Bool) : ℕ :=
  (l.findIdx? (fun b => b)).getD 0

/-- `np.cumsum` over a rational vector. -/
def npCumsum : List ℚ → List ℚ
  | [] => []
  | x :: xs => x :: (npCumsum xs).map (fun c => x + c)

/-- `np.argmax(u * np.sum(rates) < np.cumsum(rates))`: the inverse-CDF event draw of
`doEvent` (line 39-41 of events.py). -/
def selectIndex (u : ℚ) (rates : List ℚ) : ℕ :=
  argmaxBool ((npCumsum rates).map (fun c => decide (u * rates.sum < c)))

/-- Python/numpy indexing of a float vector by a possibly negative integer index
(negative indices wrap from the end); out-of-range reads default to 0 where numpy
would raise. -/
def pyGet (l : List ℚ) (i : ℤ) : ℚ :=
  if 0 ≤ i then l.getD i.toNat 0 else l.getD (l.length - (-i).toNat) 0

/-- `np.digitize(x, bins) : for monotonically increasing `bins` (the configured
age-group breakpoints) this is `#{j | bins[j] ≤ x}` (right-open intervals). -/
def npDigitize (x : ℚ) (bins : List ℚ) : ℤ :=
  ((bins.countP (fun b => decide (b ≤ x))) : ℤ)

/-- The fields of the `Parameters` dataclass that events.py reads. -/
structure Parameters where
  N : ℕ
  v1 : List ℚ
  v2 : List ℚ
  v3 : List ℚ
  reproFuncName : String
  SR : Bool
  lambda_egg : ℚ
  gamma : ℚ
  psi : ℚ
  LDecayRate : ℚ
  rho : List ℚ
  contactAgeGroupBreaks : List ℚ
  treatmentAgeGroupBreaks : List ℚ
  VaccTreatmentAgeGroupBreaks : List ℚ
  VaccTreatmentBreaks : List ℚ
  propNeverCompliers : ℚ
  drug1Years : List ℚ
  drug2Years : List ℚ
  drug1Split : List ℚ
  drug2Split : List ℚ
  DrugEfficacy1 : ℚ
  DrugEfficacy2 : ℚ
  minSurveyAge : ℚ
  maxSurveyAge : ℚ
  deriving DecidableEq

/-- `SD.worms`: per-host total and female worm counts. -/
structure Worms where
  total : List ℤ
  female : List ℤ
  deriving DecidableEq

/-- `SD.demography`: per-host birth and death dates. -/
structure Demography where
  birthDate : List ℚ
  deathDate : List ℚ
  deriving DecidableEq

/-- The fields of the `SDEquilibrium` dataclass that events.py reads or writes. -/
structure SDEquilibrium where
  si : List ℚ
  sv : List ℕ
  worms : Worms
  freeLiving : ℚ
  demography : Demography
  contactAgeGroupIndices : List ℤ
  treatmentAgeGroupIndices : List ℤ
  VaccTreatmentAgeGroupIndices : List ℤ
  adherenceFactors : List ℚ
  compliers : List Bool
  vaccCount : ℤ
  numSurvey : ℕ
  numSurveyTwo : ℕ
  nChemo1 : ℤ
  nChemo2 : ℤ
  attendanceRecord : List (List ℕ)
  ageAtChemo : List (List ℚ)
  adherenceFactorAtChemo : List (List ℚ)
  deriving DecidableEq

/-- The uniform variates a single `doEvent` call may draw, in source order:
event selection (line 40), nested death-host draw (line 46), female-death draw
(line 54), acquisition gate (line 60), female-acquisition draw (line 62). -/
structure EventDraws where
  uEvent : ℚ
  uDeathHost : ℚ
  uDeathFemale : ℚ
  uAcq : ℚ
  uAcqFemale : ℚ

/-- `SD.worms.total * params.v1[SD.sv]`: the nested death-draw weights of events.py
lines 47-48. -/
def deathWeights (p : Parameters) (sd : SDEquilibrium) : List ℚ :=
  List.zipWith (fun T s => (T : ℚ) * p.v1.getD s 0) sd.worms.total sd.sv

/-- The nested weighted host draw of the worm-death branch (events.py lines 45-49). -/
def deathHostIndex (u : ℚ) (p : Parameters) (sd : SDEquilibrium) : ℕ :=
  argmaxBool ((npCumsum (deathWeights p sd)).map
    (fun c => decide (u * (deathWeights p sd).sum < c)))

/-- The worm-death block of `doEvent` (events.py lines 43-57): decrement the chosen
host's total, then decrement its female count when the fresh variate is below
`female[deathIndex] / total[deathIndex]` — evaluated *after* the total was
decremented. -/
def deathApply (uHost uFem : ℚ) (p : Parameters) (sd : SDEquilibrium) : SDEquilibrium :=
  let deathIndex := deathHostIndex uHost p sd
  let total' := sd.worms.total.set deathIndex (sd.worms.total.getD deathIndex 0 - 1)
  let female' :=
    if uFem < ((sd.worms.female.getD deathIndex 0 : ℤ) : ℚ) / ((total'.getD deathIndex 0 : ℤ) : ℚ) then
      sd.worms.female.set deathIndex (sd.worms.female.getD deathIndex 0 - 1)
    else sd.worms.female
  { sd with worms := ⟨total', female'⟩ }

/-- The worm-acquisition block of `doEvent` (events.py lines 59-63). -/
def acqApply (event : ℕ) (uGate uFem : ℚ) (p : Parameters) (sd : SDEquilibrium) : SDEquilibrium :=
  if uGate < p.v3.getD (sd.sv.getD event 0) 0 then
    let total' := sd.worms.total.set event (sd.worms.total.getD event 0 + 1)
    let female' :=
      if uFem < 1 / 2 then sd.worms.female.set event (sd.worms.female.getD event 0 + 1)
      else sd.worms.female
    { sd with worms := ⟨total', female'⟩ }
  else sd

/-- `doEvent` (events.py lines 17-68), the single-draw event sampler. Note the
source really has two consecutive conditionals: `if event == len(rates) - 1` (death)
followed by a separate `if event <= N / elif event <= 2N` chain, so both can fire
in one call. -/
def doEvent (rates : List ℚ) (p : Parameters) (sd : SDEquilibrium) (d : EventDraws) :
    SDEquilibrium :=
  let event := selectIndex d.uEvent rates
  let sd1 := if event + 1 = rates.length then deathApply d.uDeathHost d.uDeathFemale p sd else sd
  if event ≤ p.N then acqApply event d.uAcq d.uAcqFemale p sd1
  else if event ≤ 2 * p.N then { sd1 with sv := sd1.sv.set (event - p.N) 0 }
  else sd1

/-- The worm-death branch condition of `doEvent` (line 43): the selected index is the
final slot of the rate vector. -/
def deathBranch (u : ℚ) (rates : List ℚ) : Prop :=
  selectIndex u rates + 1 = rates.length

/-- The worm-acquisition branch condition of `doEvent` (line 59). -/
def acqBranch (u : ℚ) (rates : List ℚ) (N : ℕ) : Prop :=
  selectIndex u rates ≤ N

/-- The vaccine-waning branch condition of `doEvent` (line 64). -/
def waneBranch (u : ℚ) (rates : List ℚ) (N : ℕ) : Prop :=
  ¬(selectIndex u rates ≤ N) ∧ selectIndex u rates ≤ 2 * N

instance (u : ℚ) (rates : List ℚ) : Decidable (deathBranch u rates) := by
  unfold deathBranch; infer_instance

instance (u : ℚ) (rates : List ℚ) (N : ℕ) : Decidable (acqBranch u rates N) := by
  unfold acqBranch; infer_instance

instance (u : ℚ) (rates : List ℚ) (N : ℕ) : Decidable (waneBranch u rates N) := by
  unfold waneBranch; infer_instance

/-- The inputs of one `doEvent2` call (events.py lines 71-147): the precomputed rate
sum and cumulative rates, the batch size, and the four uniform streams it draws
(line 100 selection; line 113 acquisition gates, consumed per type-1 draw; line 128
female-acquisition draws, one per batch slot; line 123 female-death draws, consumed
per type-3 draw). -/
structure Ev2Input where
  sum_rates : ℚ
  cumsum_rates : List ℚ
  multiplier : ℕ
  uSelect : ℕ → ℚ
  uAcq : ℕ → ℚ
  uFem : ℕ → ℚ
  uDeath : ℕ → ℚ

/-- `events_array[i]` (line 101): vectorized inverse-CDF lookup of draw `i`. -/
def ev2Index (a : Ev2Input) (i : ℕ) : ℕ :=
  argmaxBool (a.cumsum_rates.map (fun c => decide (a.uSelect i * a.sum_rates < c)))

/-- `event_types_array[i] = events_array[i] // N + 1` (line 102). -/
def ev2Type (p : Parameters) (a : Ev2Input) (i : ℕ) : ℕ :=
  ev2Index a i / p.N + 1

/-- `host_index_array[i] = events_array[i] % N` (line 103). -/
def ev2Host (p : Parameters) (a : Ev2Input) (i : ℕ) : ℕ :=
  ev2Index a i % p.N

/-- Rank of draw `i` among the type-1 (acquisition) draws: position of its gate
variate inside the length-`len(event1_hosts)` uniform vector of line 113. -/
def ev2Rank1 (p : Parameters) (a : Ev2Input) (i : ℕ) : ℕ :=
  (List.range i).countP (fun j => ev2Type p a j = 1)

/-- Rank of draw `i` among the type-3 (death) draws (uniform vector of line 123). -/
def ev2Rank3 (p : Parameters) (a : Ev2Input) (i : ℕ) : ℕ :=
  (List.range i).countP (fun j => ev2Type p a j = 3)

/-- `event1_total_bools[i]` (lines 112-115): draw `i` is an acquisition that passes
its `v3` gate. -/
def ev2Gate1 (p : Parameters) (sd : SDEquilibrium) (a : Ev2Input) (i : ℕ) : Bool :=
  decide (ev2Type p a i = 1) &&
    decide (a.uAcq (ev2Rank1 p a i) < p.v3.getD (sd.sv.getD (ev2Host p a i) 0) 0)

/-- `total_array[i]` (line 117): the total-worm contribution of draw `i`. -/
def ev2TotalDelta (p : Parameters) (sd : SDEquilibrium) (a : Ev2Input) (i : ℕ) : ℤ :=
  (if ev2Gate1 p sd a i then 1 else 0) + (if ev2Type p a i = 3 then -1 else 0)

/-- `event3_total_bools[i]` (lines 119-126): draw `i` is a death whose female-death
variate is below the addressed host's (pre-update) female fraction. -/
def ev2Gate3 (p : Parameters) (sd : SDEquilibrium) (a : Ev2Input) (i : ℕ) : Bool :=
  decide (ev2Type p a i = 3) &&
    decide (a.uDeath (ev2Rank3 p a i) <
      ((sd.worms.female.getD (ev2Host p a i) 0 : ℤ) : ℚ) /
        ((sd.worms.total.getD (ev2Host p a i) 0 : ℤ) : ℚ))

/-- `females_array[i]` (lines 127-131): the female-worm contribution of draw `i`. -/
def ev2FemDelta (p : Parameters) (sd : SDEquilibrium) (a : Ev2Input) (i : ℕ) : ℤ :=
  (if ev2Gate1 p sd a i && decide (a.uFem i < 1 / 2) then 1 else 0) +
    (if ev2Gate3 p sd a i then -1 else 0)

/-- `doEvent2` (events.py lines 71-147), the batched event sampler. The final
`np.put(arr, host_index_array, np.take(arr, host_index_array) + delta)` calls
(lines 134-145) read the *original* arrays via `np.take` and then write the slots
sequentially in draw order, so for repeated hosts the last draw's write wins. -/
def doEvent2 (p : Parameters) (sd : SDEquilibrium) (a : Ev2Input) : SDEquilibrium :=
  let sv' := (List.range a.multiplier).foldl
    (fun acc i => if ev2Type p a i = 2 then acc.set (ev2Host p a i) 0 else acc) sd.sv
  let total' := (List.range a.multiplier).foldl
    (fun acc i =>
      acc.set (ev2Host p a i) (sd.worms.total.getD (ev2Host p a i) 0 + ev2TotalDelta p sd a i))
    sd.worms.total
  let female' := (List.range a.multiplier).foldl
    (fun acc i =>
      acc.set (ev2Host p a i) (sd.worms.female.getD (ev2Host p a i) 0 + ev2FemDelta p sd a i))
    sd.worms.female
  { sd with sv := sv', worms := ⟨total', female'⟩ }

/-- The index of the last draw in `l` that addresses host `h` (`f` maps a draw index
to the host it addresses); `none` when no draw addresses `h`. -/
def lastHit (f : ℕ → ℕ) (h : ℕ) : List ℕ → Option ℕ
  | [] => none
  | i :: rest =>
    match lastHit f h rest with
    | some j => some j
    | none => if f i = h then some i else none

/-- Follows the words of the claim rather than the code: the total worm count host
`h` would end with if every one of the `multiplier` draws addressing it contributed
additively. -/
def specAdditiveTotal (p : Parameters) (sd : SDEquilibrium) (a : Ev2Input) (h : ℕ) : ℤ :=
  sd.worms.total.getD h 0 +
    ((List.range a.multiplier).map
      (fun i => if ev2Host p a i = h then ev2TotalDelta p sd a i else 0)).sum

/-- `d1Share`/`d2Share` lookup of `doChemoAgeRange` (events.py lines 402-407): the
split value at the first index where the drug-year vector equals `t`, else 0. -/
def shareOf (years split : List ℚ) (t : ℚ) : ℚ :=
  match years.findIdx? (fun y => decide (y = t)) with
  | some i => split.getD i 0
  | none => 0

/-- `arr[k] -= draws` for a list `k` of distinct ascending indices (as produced by
`np.where`): sequential per-position subtraction, `draws` consumed by rank. -/
def applyKills (arr : List ℤ) (ks : List ℕ) (draw : ℕ → ℤ) : List ℤ :=
  ks.enum.foldl (fun a ri => a.set ri.2 (a.getD ri.2 0 - draw ri.1)) arr

/-- `doChemoAgeRange` (events.py lines 352-456). `uAttend` are the attendance
variates (line 384), `samplePos` is the `random.sample` oracle assigning drug 2
(line 412), and `binF1/binM1/binF2/binM2` are the `np.random.binomial` kill-count
oracles of the drug-1 and drug-2 blocks, consumed by rank inside each block's `k`.
Note that the source's `k = np.where(drug == 1)[0]` (and `== 2`) are positions
*within the treated cohort*, which the source then uses directly as population
indices into `SD.worms.female`/`SD.worms.total`. -/
def doChemoAgeRange (p : Parameters) (sd : SDEquilibrium) (t minAge maxAge coverage : ℚ)
    (uAttend : ℕ → ℚ) (samplePos : ℕ → ℕ) (binF1 binM1 binF2 binM2 : ℕ → ℤ) :
    SDEquilibrium :=
  let toTreat : ℕ → Bool := fun i =>
    (decide (uAttend i < coverage) && sd.compliers.getD i false) &&
      (decide (t - sd.demography.birthDate.getD i 0 ≤ maxAge) &&
        decide (minAge ≤ t - sd.demography.birthDate.getD i 0))
  let cohortSize := (List.range p.N).countP toTreat
  let d1Share := shareOf p.drug1Years p.drug1Split t
  let d2Share := shareOf p.drug2Years p.drug2Split t
  let drug2Set : List ℕ :=
    if 0 < d2Share then
      (List.range (Rat.floor ((cohortSize : ℚ) * d2Share)).toNat).map samplePos
    else []
  let st1 :=
    if 0 < d1Share then
      let k1 := (List.range cohortSize).filter (fun j => decide (j ∉ drug2Set))
      let female' := applyKills sd.worms.female k1 binF1
      let total' := applyKills sd.worms.total k1 (fun r => binM1 r + binF1 r)
      { sd with worms := ⟨total', female'⟩,
                attendanceRecord := sd.attendanceRecord ++ [k1],
                nChemo1 := sd.nChemo1 + (k1.length : ℤ) }
    else sd
  let st2 :=
    if 0 < d2Share then
      let k2 := (List.range cohortSize).filter (fun j => decide (j ∈ drug2Set))
      let female' := applyKills st1.worms.female k2 binF2
      let total' := applyKills st1.worms.total k2 (fun r => binM2 r + binF2 r)
      { st1 with worms := ⟨total', female'⟩,
                 attendanceRecord := st1.attendanceRecord ++ [k2],
                 nChemo2 := st1.nChemo2 + (k2.length : ℤ) }
    else st1
  { st2 with ageAtChemo := st2.ageAtChemo ++ [sd.demography.birthDate.map (fun b => t - b)],
             adherenceFactorAtChemo := st2.adherenceFactorAtChemo ++ [sd.adherenceFactors] }

/-- `doVaccine` (events.py lines 459-494). `uVacc` are the coverage variates of
line 481. -/
def doVaccine (p : Parameters) (sd : SDEquilibrium) (t : ℚ) (VaccCoverage : List ℚ)
    (uVacc : ℕ → ℚ) : SDEquilibrium :=
  let temp : List ℤ := sd.VaccTreatmentAgeGroupIndices.map (fun x => (x + 1).fdiv 2 - 1)
  let vaccinate : ℕ → Bool := fun i => decide (uVacc i < pyGet VaccCoverage (temp.getD i 0))
  let indicesToVaccinate : List ℤ :=
    (List.range p.VaccTreatmentBreaks.length).map (fun i => ((1 + i * 2 : ℕ) : ℤ))
  let hosts4 : ℕ → Bool := fun i =>
    decide (sd.VaccTreatmentAgeGroupIndices.getD i 0 ∈ indicesToVaccinate)
  { sd with
    sv := sd.sv.mapIdx (fun i s => if hosts4 i && vaccinate i then 1 else s),
    vaccCount := sd.vaccCount
      + ((List.range sd.VaccTreatmentAgeGroupIndices.length).countP hosts4 : ℤ)
      + ((List.range p.N).countP vaccinate : ℤ) }

/-- `doDeath` (events.py lines 235-296). The dead are the hosts with
`deathDate < t`; `np.where` lists them in ascending order, so the oracle streams
(`gammaDraw` for the new susceptibilities, `lifespanDraw` for `getLifeSpans`,
`uAdh`/`uComp` for the adherence and compliance uniforms) are consumed by the rank
of the host among the dead. The masked numpy assignments are translated index-wise. -/
def doDeath (p : Parameters) (sd : SDEquilibrium) (t : ℚ)
    (gammaDraw lifespanDraw uAdh uComp : ℕ → ℚ) : SDEquilibrium :=
  let dead : ℕ → Bool := fun i => decide (sd.demography.deathDate.getD i 0 < t)
  let rank : ℕ → ℕ := fun i => (List.range i).countP dead
  let birth' := sd.demography.birthDate.mapIdx (fun i v => if dead i then t - 1 / 1000 else v)
  { sd with
    si := sd.si.mapIdx (fun i v => if dead i then gammaDraw (rank i) else v),
    sv := sd.sv.mapIdx (fun i v => if dead i then 0 else v),
    worms := ⟨sd.worms.total.mapIdx (fun i v => if dead i then 0 else v),
              sd.worms.female.mapIdx (fun i v => if dead i then 0 else v)⟩,
    demography := ⟨birth',
      sd.demography.deathDate.mapIdx (fun i v => if dead i then t + lifespanDraw (rank i) else v)⟩,
    adherenceFactors := sd.adherenceFactors.mapIdx (fun i v => if dead i then uAdh (rank i) else v),
    compliers := sd.compliers.mapIdx
      (fun i v => if dead i then decide (p.propNeverCompliers < uComp (rank i)) else v),
    contactAgeGroupIndices := birth'.map (fun b => npDigitize (t - b) p.contactAgeGroupBreaks - 1),
    treatmentAgeGroupIndices :=
      birth'.map (fun b => npDigitize (t - b) p.treatmentAgeGroupBreaks - 1),
    VaccTreatmentAgeGroupIndices :=
      birth'.map (fun b => npDigitize (t - b) p.VaccTreatmentAgeGroupBreaks - 1) }

/-- `productivefemaleworms` (events.py lines 199-214), selected by the reproduction
function name; `none` models the `raise ValueError` of the unrecognized case. -/
def productiveFemaleWorms (p : Parameters) (sd : SDEquilibrium) : Option (List ℤ) :=
  if p.reproFuncName = "epgFertility" ∧ p.SR then
    some (List.zipWith (fun T F => if T = F then 0 else F) sd.worms.total sd.worms.female)
  else if p.reproFuncName = "epgFertility" ∧ ¬p.SR then
    some sd.worms.female
  else if p.reproFuncName = "epgMonog" then
    some (List.zipWith (fun T F => min (T - F) F) sd.worms.total sd.worms.female)
  else none

/-- `eggOutputPerHost` (events.py lines 215-220); `expf` is the `np.exp` oracle. -/
def eggOutputPerHost (expf : ℚ → ℚ) (p : Parameters) (sd : SDEquilibrium) (pfw : List ℤ) :
    List ℚ :=
  (List.zip pfw (List.zip sd.worms.total sd.sv)).map
    (fun w => p.lambda_egg * (w.1 : ℚ) * expf (-(w.2.1 : ℚ) * p.gamma) * p.v2.getD w.2.2 0)

/-- `eggsProdRate` (events.py lines 221-226). -/
def eggsProdRate (expf : ℚ → ℚ) (p : Parameters) (sd : SDEquilibrium) (pfw : List ℤ) : ℚ :=
  2 * p.psi * ((List.zip (eggOutputPerHost expf p sd pfw) sd.contactAgeGroupIndices).map
    (fun ec => ec.1 * pyGet p.rho ec.2)).sum / (p.N : ℚ)

/-- `doFreeLive` (events.py lines 180-232); `expf` is the `np.exp` oracle shared by
the per-host fecundity factor and the reservoir decay factor. -/
def doFreeLive (expf : ℚ → ℚ) (p : Parameters) (sd : SDEquilibrium) (dt : ℚ) :
    Except String SDEquilibrium :=
  match productiveFemaleWorms p sd with
  | none => Except.error ("Unsupported reproFuncName : " ++ p.reproFuncName)
  | some pfw =>
    let expFactor := expf (-p.LDecayRate * dt)
    Except.ok { sd with freeLiving :=
      sd.freeLiving * expFactor + eggsProdRate expf p sd pfw * (1 - expFactor) / p.LDecayRate }

/-- `conductSurvey` (events.py lines 539-582). `eggDraw c` is the per-host egg-count
vector returned by the `c`-th call of the external `getSetOfEggCounts` sampler;
`choice` is the `np.random.choice` oracle giving the position (within the
age-eligible egg vector) of the `r`-th sampled reading. The infeasible-draw
condition of `np.random.choice(..., replace=False)` is the second error case. -/
def conductSurvey (sd : SDEquilibrium) (p : Parameters) (t : ℚ) (sampleSize nSamples : ℤ)
    (eggDraw : ℕ → List ℚ) (choice : ℕ → ℕ) : Except String (SDEquilibrium × ℚ) :=
  if nSamples < 1 then Except.error "nSamples < 1"
  else
    let eggSum := (List.range (nSamples.toNat - 1)).foldl
      (fun acc j => List.zipWith (fun x y => x + y) acc (eggDraw (j + 1))) (eggDraw 0)
    let eggCounts := eggSum.map (fun e => e / (nSamples : ℚ))
    let surveyAged : List Bool := sd.demography.birthDate.map
      (fun b => decide (p.minSurveyAge ≤ -(b - t)) && decide (-(b - t) ≤ p.maxSurveyAge))
    let surveyEggs := (List.zip eggCounts surveyAged).filterMap
      (fun eb => if eb.2 then some eb.1 else none)
    let KKSampleSize : ℤ := min sampleSize ((surveyAged.countP (fun b => b) : ℕ) : ℤ)
    if KKSampleSize < 0 ∨ (surveyEggs.length : ℤ) < KKSampleSize then
      Except.error "random choice failed"
    else
      let sampledEggs := (List.range KKSampleSize.toNat).map (fun r => surveyEggs.getD (choice r) 0)
      Except.ok ({ sd with numSurvey := sd.numSurvey + 1 },
        ((sampledEggs.countP (fun e => decide ((9 : ℚ) / 10 < e)) : ℕ) : ℚ) / (KKSampleSize : ℚ))

/-- `conductSurveyTwo` (events.py lines 585-613). Unlike `conductSurvey`, its
accumulation loop is `for _ in range(nSamples)` on top of the initial draw, so
`nSamples + 1` egg-count vectors are summed before dividing by `nSamples`. -/
def conductSurveyTwo (sd : SDEquilibrium) (p : Parameters) (t : ℚ) (sampleSize nSamples : ℤ)
    (eggDraw : ℕ → List ℚ) (choice : ℕ → ℕ) : Except String (SDEquilibrium × ℚ) :=
  if nSamples < 1 then Except.error "nSamples < 1"
  else
    let eggSum := (List.range nSamples.toNat).foldl
      (fun acc j => List.zipWith (fun x y => x + y) acc (eggDraw (j + 1))) (eggDraw 0)
    let eggCounts := eggSum.map (fun e => e / (nSamples : ℚ))
    let KKSampleSize : ℤ := min sampleSize (p.N : ℤ)
    if KKSampleSize < 0 ∨ (eggCounts.length : ℤ) < KKSampleSize then
      Except.error "random choice failed"
    else
      let sampledEggs := (List.range KKSampleSize.toNat).map (fun r => eggCounts.getD (choice r) 0)
      Except.ok ({ sd with numSurveyTwo := sd.numSurveyTwo + 1 },
        ((sampledEggs.countP (fun e => decide ((9 : ℚ) / 10 < e)) : ℕ) : ℚ) / (KKSampleSize : ℚ))

/-! ### Concrete fixtures used by the per-claim witnesses and counterexamples -/

/-- A well-formed parameter set for a one-host population; per-claim fixtures
override the fields they need. -/
def baseParams : Parameters where
  N := 1
  v1 := [1, 1]
  v2 := [1, 1]
  v3 := [1, 1]
  reproFuncName := "epgMonog"
  SR := false
  lambda_egg := 1
  gamma := 0
  psi := 1
  LDecayRate := 1
  rho := [1]
  contactAgeGroupBreaks := [0, 100]
  treatmentAgeGroupBreaks := [0, 100]
  VaccTreatmentAgeGroupBreaks := [0, 100]
  VaccTreatmentBreaks := [5]
  propNeverCompliers := 0
  drug1Years := []
  drug2Years := []
  drug1Split := []
  drug2Split := []
  DrugEfficacy1 := 1
  DrugEfficacy2 := 1
  minSurveyAge := 0
  maxSurveyAge := 100

/-- An empty population state; per-claim fixtures override the fields they need. -/
def baseSD : SDEquilibrium where
  si := []
  sv := []
  worms := ⟨[], []⟩
  freeLiving := 0
  demography := ⟨[], []⟩
  contactAgeGroupIndices := []
  treatmentAgeGroupIndices := []
  VaccTreatmentAgeGroupIndices := []
  adherenceFactors := []
  compliers := []
  vaccCount := 0
  numSurvey := 0
  numSurveyTwo := 0
  nChemo1 := 0
  nChemo2 := 0
  attendanceRecord := []
  ageAtChemo := []
  adherenceFactorAtChemo := []

def pC1 : Parameters := { baseParams with N := 2 }

def sdC1 : SDEquilibrium :=
  { baseSD with sv := [0, 0], worms := ⟨[10, 5], [4, 2]⟩, si := [1, 1],
                demography := ⟨[0, 0], [70, 70]⟩, compliers := [true, true],
                adherenceFactors := [0, 0] }

/-- Draws for the C1 counterexample: select the final slot of a length-2 rate
vector, kill a worm of host 0, then (same call) acquire a worm for host 1. -/
def dC1 : EventDraws := ⟨1 / 2, 1 / 4, 9 / 10, 0, 9 / 10⟩

def pC1W : Parameters := { baseParams with N := 1 }

def sdC1W : SDEquilibrium :=
  { baseSD with sv := [0], worms := ⟨[10], [4]⟩, si := [1],
                demography := ⟨[0], [70]⟩, compliers := [true], adherenceFactors := [0] }

def dC1W : EventDraws := ⟨1 / 4, 1 / 2, 1 / 2, 0, 0⟩

def pC2 : Parameters := { baseParams with N := 1 }

def sdC2 : SDEquilibrium :=
  { baseSD with sv := [0], worms := ⟨[10], [4]⟩, si := [1],
                demography := ⟨[0], [70]⟩, compliers := [true], adherenceFactors := [0] }

/-- Draws for C2: a pure death event (final slot of a length-4 rate vector with
N = 1), with female-death variate 0.42 — at or above the pre-decrement fraction
4/10 but below the post-decrement fraction 4/9. -/
def dC2 : EventDraws := ⟨1 / 2, 1 / 2, 42 / 100, 0, 0⟩

def pC3 : Parameters := { baseParams with N := 1 }

def sdC3 : SDEquilibrium :=
  { baseSD with sv := [0], worms := ⟨[10], [4]⟩, si := [1],
                demography := ⟨[0], [70]⟩, compliers := [true], adherenceFactors := [0] }

/-- Batch input for C3: two draws, both resolving to the acquisition class of the
single host 0, both passing the `v3 = 1` gate. -/
def aC3 : Ev2Input :=
  { sum_rates := 1, cumsum_rates := [1], multiplier := 2,
    uSelect := fun _ => 1 / 2, uAcq := fun _ => 0, uFem := fun _ => 7 / 10,
    uDeath := fun _ => 0 }

def pC4 : Parameters :=
  { baseParams with N := 2, drug1Years := [2020], drug1Split := [1],
                    drug2Years := [2019], drug2Split := [1 / 2] }

def sdC4 : SDEquilibrium :=
  { baseSD with sv := [0, 0], worms := ⟨[10, 7], [4, 3]⟩, si := [1, 1],
                demography := ⟨[2010, 2010], [3000, 3000]⟩,
                compliers := [false, true], adherenceFactors := [0, 0] }

def pC5 : Parameters := { baseParams with N := 1 }

def sdC5 : SDEquilibrium :=
  { baseSD with sv := [0], worms := ⟨[10], [4]⟩, si := [1],
                demography := ⟨[0], [70]⟩, compliers := [true], adherenceFactors := [0] }

def pC6 : Parameters := { baseParams with N := 2, VaccTreatmentBreaks := [5, 10] }

def sdC6 : SDEquilibrium :=
  { baseSD with sv := [0, 0], worms := ⟨[10, 5], [4, 2]⟩, si := [1, 1],
                demography := ⟨[0, 0], [70, 70]⟩, compliers := [true, true],
                adherenceFactors := [0, 0], VaccTreatmentAgeGroupIndices := [1, 2] }

def pC7 : Parameters := { baseParams with N := 2 }

def sdC7 : SDEquilibrium :=
  { baseSD with sv := [1, 1], worms := ⟨[10, 5], [4, 2]⟩, si := [1, 1],
                demography := ⟨[-20, -30], [-1, 5]⟩, compliers := [true, false],
                adherenceFactors := [0, 0] }

def pC8 : Parameters := { baseParams with N := 1 }

def sdC8 : SDEquilibrium :=
  { baseSD with sv := [0], worms := ⟨[2], [1]⟩, si := [1],
                demography := ⟨[0], [70]⟩, compliers := [true], adherenceFactors := [0],
                contactAgeGroupIndices := [0], freeLiving := 10 }

def pC9 : Parameters := { baseParams with N := 1 }

def sdC9 : SDEquilibrium :=
  { baseSD with sv := [0], worms := ⟨[10], [4]⟩, si := [1],
                demography := ⟨[0], [70]⟩, compliers := [true], adherenceFactors := [0] }

def pC10 : Parameters := { baseParams with N := 1 }

def sdC10 : SDEquilibrium :=
  { baseSD with sv := [0], worms := ⟨[10], [4]⟩, si := [1],
                demography := ⟨[0], [70]⟩, compliers := [true], adherenceFactors := [0] }

/-! ### List helper lemmas -/

unseal Rat.add Rat.mul Rat.inv Rat.sub

theorem getD_set_self {α : Type} (l : List α) (i : ℕ) (v d : α) (h : i < l.length) :
    (l.set i v).getD i d = v := by
  rw [List.getD_eq_getElem _ d (by simpa using h)]
  simp

theorem getD_set_ne {α : Type} (l : List α) (i j : ℕ) (v d : α) (h : i ≠ j) :
    (l.set i v).getD j d = l.getD j d := by
  by_cases hj : j < l.length
  · rw [List.getD_eq_getElem _ d (by simpa using hj), List.getD_eq_getElem _ d hj]
    exact List.getElem_set_ne h _
  · rw [List.getD_eq_default _ d (by simpa using Nat.le_of_not_lt hj),
      List.getD_eq_default _ d (Nat.le_of_not_lt hj)]

theorem getD_map_of_lt {α β : Type} (l : List α) (f : α → β) (i : ℕ) (d : β) (d' : α)
    (h : i < l.length) : (l.map f).getD i d = f (l.getD i d') := by
  rw [List.getD_eq_getElem _ d (by simpa using h), List.getD_eq_getElem _ d' h]
  simp

theorem getD_mapIdx_of_lt {α β : Type} (l : List α) (f : ℕ → α → β) (i : ℕ) (d : β) (d' : α)
    (h : i < l.length) : (l.mapIdx f).getD i d = f i (l.getD i d') := by
  rw [List.getD_eq_getElem _ d (by simpa using h), List.getD_eq_getElem _ d' h]
  simp

theorem lastHit_eq_of (f : ℕ → ℕ) (h : ℕ) :
    ∀ (l : List ℕ) (i : ℕ), lastHit f h l = some i → f i = h := by
  intro l
  induction l with
  | nil => intro i hi; simp [lastHit] at hi
  | cons a rest ih =>
    intro i hi
    simp only [lastHit] at hi
    cases hrest : lastHit f h rest with
    | some j =>
      rw [hrest] at hi
      exact Option.some_inj.mp hi ▸ ih j hrest
    | none =>
      rw [hrest] at hi
      by_cases hfa : f a = h
      · rw [if_pos hfa] at hi
        cases hi
        exact hfa
      · rw [if_neg hfa] at hi
        cases hi

theorem foldl_set_getD (f : ℕ → ℕ) (g : ℕ → ℤ) (h : ℕ) :
    ∀ (l : List ℕ) (init : List ℤ), h < init.length →
      (l.foldl (fun acc i => acc.set (f i) (g i)) init).getD h 0 =
        match lastHit f h l with
        | some i => g i
        | none => init.getD h 0 := by
  intro l
  induction l with
  | nil => intro init _; rfl
  | cons a rest ih =>
    intro init hlen
    have hlen' : h < (init.set (f a) (g a)).length := by simpa using hlen
    simp only [List.foldl_cons]
    rw [ih _ hlen']
    simp only [lastHit]
    cases hrest : lastHit f h rest with
    | some j => simp [hrest]
    | none =>
      simp only [hrest]
      by_cases hfa : f a = h
      · rw [if_pos hfa]
        subst hfa
        exact getD_set_self _ _ _ _ hlen
      · rw [if_neg hfa]
        exact getD_set_ne _ _ _ _ _ hfa

/-! ### Claim theorems -/

/-- Claim C1 (amended): a single `doEvent` call executes exactly one of the three
handler branches (worm death, worm acquisition, vaccine waning) precisely when
exactly one of [the selected index is the final (lumped death) rate slot] and [the
selected index lies in the per-host range `0..2N`] holds.  In particular the death
branch combines with a per-host branch whenever the final slot index is at most
`2N`, and no branch at all executes when the selected index exceeds `2N` without
being the final slot, in which case `doEvent` returns the state unchanged. -/
theorem doEvent_branch_trichotomy (rates : List ℚ) (p : Parameters) (sd : SDEquilibrium)
    (d : EventDraws) :
    (((deathBranch d.uEvent rates ∧ ¬acqBranch d.uEvent rates p.N ∧
          ¬waneBranch d.uEvent rates p.N) ∨
      (¬deathBranch d.uEvent rates ∧ acqBranch d.uEvent rates p.N ∧
          ¬waneBranch d.uEvent rates p.N) ∨
      (¬deathBranch d.uEvent rates ∧ ¬acqBranch d.uEvent rates p.N ∧
          waneBranch d.uEvent rates p.N)) ↔
      ((deathBranch d.uEvent rates ∧ ¬(selectIndex d.uEvent rates ≤ 2 * p.N)) ∨
       (¬deathBranch d.uEvent rates ∧ selectIndex d.uEvent rates ≤ 2 * p.N))) ∧
    ((¬deathBranch d.uEvent rates ∧ ¬(selectIndex d.uEvent rates ≤ 2 * p.N)) →
      doEvent rates p sd d = sd) := by
  constructor
  · simp only [deathBranch, acqBranch, waneBranch]
    omega
  · rintro ⟨hd, h2⟩
    simp only [deathBranch] at hd
    have hN : ¬(selectIndex d.uEvent rates ≤ p.N) := by omega
    simp only [doEvent]
    rw [if_neg hd, if_neg hN, if_neg h2]

/-- Claim C1 is false as stated: with the non-negative rate vector `[0, 1]` and a
two-host population, the selected index 1 is simultaneously the final (death) slot
and inside the acquisition range `event ≤ N`, so one `doEvent` call decrements
host 0's total worm count (death) *and* increments host 1's total worm count
(acquisition) — two atomic state changes in one call. -/
theorem doEvent_double_change_cex :
    deathBranch dC1.uEvent [(0 : ℚ), 1] ∧ acqBranch dC1.uEvent [(0 : ℚ), 1] pC1.N ∧
      (doEvent [(0 : ℚ), 1] pC1 sdC1 dC1).worms.total = [9, 6] ∧
      sdC1.worms.total = [10, 5] := by
  decide

/-- Witness for `doEvent_branch_trichotomy`: a concrete call whose selected index 3
exceeds `2N = 2` and is not the final slot of the length-5 rate vector leaves the
state unchanged. -/
theorem doEvent_branch_trichotomy_witness :
    doEvent [(0 : ℚ), 0, 0, 1, 1] pC1W sdC1W dC1W = sdC1W :=
  (doEvent_branch_trichotomy [(0 : ℚ), 0, 0, 1, 1] pC1W sdC1W dC1W).2 ⟨by decide, by decide⟩

/-- Claim C2 (amended): when the death class is selected (and the selected index
lies outside both per-host ranges, and the nested draw picks an in-range host), the
addressed host's total is decremented and its female count is decremented exactly
when the fresh uniform variate is below `F / (T - 1)`: the female fraction taken
*after* the total was decremented, not the pre-decrement fraction `F / T`. For the
single host with `wormsTotal = 10, wormsFemale = 4` this probability is 4/9. -/
theorem doEvent_death_postfraction (rates : List ℚ) (p : Parameters) (sd : SDEquilibrium)
    (d : EventDraws)
    (he : selectIndex d.uEvent rates + 1 = rates.length)
    (hgt : 2 * p.N < selectIndex d.uEvent rates)
    (hdi : deathHostIndex d.uDeathHost p sd < sd.worms.total.length) :
    (doEvent rates p sd d).worms.total =
      sd.worms.total.set (deathHostIndex d.uDeathHost p sd)
        (sd.worms.total.getD (deathHostIndex d.uDeathHost p sd) 0 - 1) ∧
    (doEvent rates p sd d).worms.female =
      if d.uDeathFemale <
          ((sd.worms.female.getD (deathHostIndex d.uDeathHost p sd) 0 : ℤ) : ℚ) /
            (((sd.worms.total.getD (deathHostIndex d.uDeathHost p sd) 0 : ℤ) : ℚ) - 1) then
        sd.worms.female.set (deathHostIndex d.uDeathHost p sd)
          (sd.worms.female.getD (deathHostIndex d.uDeathHost p sd) 0 - 1)
      else sd.worms.female := by
  have hN : ¬(selectIndex d.uEvent rates ≤ p.N) := by omega
  have h2 : ¬(selectIndex d.uEvent rates ≤ 2 * p.N) := by omega
  have hred : doEvent rates p sd d = deathApply d.uDeathHost d.uDeathFemale p sd := by
    simp only [doEvent]
    rw [if_neg hN, if_neg h2, if_pos he]
  rw [hred]
  simp only [deathApply]
  refine ⟨trivial, ?_⟩
  rw [getD_set_self _ _ _ _ hdi]
  push_cast
  rfl

/-- Claim C2 is false as stated: a pure death event on the single host with
`wormsTotal = 10, wormsFemale = 4` and female-death variate `0.42` decrements the
female count (because `0.42 < 4/9`) even though the variate is *not* below the
pre-decrement female fraction `4/10` the claim prescribes. -/
theorem doEvent_prefraction_cex :
    (doEvent [(0 : ℚ), 0, 0, 1] pC2 sdC2 dC2).worms.female = [3] ∧
      (doEvent [(0 : ℚ), 0, 0, 1] pC2 sdC2 dC2).worms.total = [9] ∧
      sdC2.worms.female = [4] ∧ sdC2.worms.total = [10] ∧
      ¬(dC2.uDeathFemale < 4 / 10) := by
  decide

/-- Witness for `doEvent_death_postfraction` at the concrete C2 fixture. -/
theorem doEvent_death_postfraction_witness :
    (doEvent [(0 : ℚ), 0, 0, 1] pC2 sdC2 dC2).worms.total =
      sdC2.worms.total.set (deathHostIndex dC2.uDeathHost pC2 sdC2)
        (sdC2.worms.total.getD (deathHostIndex dC2.uDeathHost pC2 sdC2) 0 - 1) ∧
    (doEvent [(0 : ℚ), 0, 0, 1] pC2 sdC2 dC2).worms.female =
      if dC2.uDeathFemale <
          ((sdC2.worms.female.getD (deathHostIndex dC2.uDeathHost pC2 sdC2) 0 : ℤ) : ℚ) /
            (((sdC2.worms.total.getD (deathHostIndex dC2.uDeathHost pC2 sdC2) 0 : ℤ) : ℚ) - 1) then
        sdC2.worms.female.set (deathHostIndex dC2.uDeathHost pC2 sdC2)
          (sdC2.worms.female.getD (deathHostIndex dC2.uDeathHost pC2 sdC2) 0 - 1)
      else sdC2.worms.female :=
  doEvent_death_postfraction [(0 : ℚ), 0, 0, 1] pC2 sdC2 dC2 (by decide) (by decide) (by decide)

/-- Claim C3 (amended): in `doEvent2`, a host addressed by several of the
`multiplier` draws ends with its *original* count plus the contribution of the
*last* draw addressing it only — `np.put` writes the slots sequentially from
per-draw values `take(original) + delta`, so earlier draws addressing the same host
are overwritten, not accumulated. -/
theorem doEvent2_last_write (p : Parameters) (sd : SDEquilibrium) (a : Ev2Input) (h : ℕ)
    (hT : h < sd.worms.total.length) (hF : h < sd.worms.female.length) :
    ((doEvent2 p sd a).worms.total.getD h 0 =
      match lastHit (ev2Host p a) h (List.range a.multiplier) with
      | some i => sd.worms.total.getD h 0 + ev2TotalDelta p sd a i
      | none => sd.worms.total.getD h 0) ∧
    ((doEvent2 p sd a).worms.female.getD h 0 =
      match lastHit (ev2Host p a) h (List.range a.multiplier) with
      | some i => sd.worms.female.getD h 0 + ev2FemDelta p sd a i
      | none => sd.worms.female.getD h 0) := by
  simp only [doEvent2]
  constructor
  · rw [foldl_set_getD (ev2Host p a)
      (fun i => sd.worms.total.getD (ev2Host p a i) 0 + ev2TotalDelta p sd a i) h
      (List.range a.multiplier) sd.worms.total hT]
    cases hl : lastHit (ev2Host p a) h (List.range a.multiplier) with
    | some i => simp only [hl]; rw [lastHit_eq_of _ _ _ _ hl]
    | none => simp only [hl]
  · rw [foldl_set_getD (ev2Host p a)
      (fun i => sd.worms.female.getD (ev2Host p a i) 0 + ev2FemDelta p sd a i) h
      (List.range a.multiplier) sd.worms.female hF]
    cases hl : lastHit (ev2Host p a) h (List.range a.multiplier) with
    | some i => simp only [hl]; rw [lastHit_eq_of _ _ _ _ hl]
    | none => simp only [hl]

/-- Claim C3 is false as stated: two batched draws both address host 0 as gated
acquisitions (`+1` each), but the host ends with total `11 = 10 + 1`, not the
additive net `12 = 10 + (1 + 1)` the claim prescribes. -/
theorem doEvent2_not_additive_cex :
    (doEvent2 pC3 sdC3 aC3).worms.total = [11] ∧
      specAdditiveTotal pC3 sdC3 aC3 0 = 12 := by
  decide

/-- Witness for `doEvent2_last_write` at the concrete C3 fixture. -/
theorem doEvent2_last_write_witness :
    ((doEvent2 pC3 sdC3 aC3).worms.total.getD 0 0 =
      match lastHit (ev2Host pC3 aC3) 0 (List.range aC3.multiplier) with
      | some i => sdC3.worms.total.getD 0 0 + ev2TotalDelta pC3 sdC3 aC3 i
      | none => sdC3.worms.total.getD 0 0) ∧
    ((doEvent2 pC3 sdC3 aC3).worms.female.getD 0 0 =
      match lastHit (ev2Host pC3 aC3) 0 (List.range aC3.multiplier) with
      | some i => sdC3.worms.female.getD 0 0 + ev2FemDelta pC3 sdC3 aC3 i
      | none => sdC3.worms.female.getD 0 0) :=
  doEvent2_last_write pC3 sdC3 aC3 0 (by decide) (by decide)

/-- Claim C4 fails on the code (code bug): with host 0 a non-complier and host 1 the
only eligible (complier, attending, age-in-range) host, the drug-1 block's
`k = np.where(drug == 1)[0] = [0]` — a position *within the cohort* — is used as a
population index, so the call zeroes the worms of the ineligible host 0 and leaves
the eligible host 1 untouched. -/
theorem doChemoAgeRange_misindex_eval :
    (doChemoAgeRange pC4 sdC4 2020 0 100 1 (fun _ => 0) (fun _ => 0) (fun _ => 4)
        (fun _ => 6) (fun _ => 0) (fun _ => 0)).worms.total = [0, 7] ∧
    (doChemoAgeRange pC4 sdC4 2020 0 100 1 (fun _ => 0) (fun _ => 0) (fun _ => 4)
        (fun _ => 6) (fun _ => 0) (fun _ => 0)).worms.female = [0, 3] ∧
    sdC4.compliers = [false, true] ∧ sdC4.worms.total = [10, 7] ∧
    sdC4.worms.female = [4, 3] := by
  decide

/-- Claim C5 fails on the code (code bug): with `nSamples = 1` and `sampleSize = N`,
`conductSurveyTwo` sums the initial egg draw plus `range(nSamples) = 1` further
draw — two readings of 1/2 each — and divides by `nSamples = 1`, reporting
prevalence 1 although no single reading exceeds the 0.9 threshold. -/
theorem conductSurveyTwo_offbyone_eval :
    conductSurveyTwo sdC5 pC5 0 1 1 (fun _ => [(1 : ℚ)/2]) (fun _ => 0) =
      Except.ok ({ sdC5 with numSurveyTwo := sdC5.numSurveyTwo + 1 }, 1) ∧
    ¬((1 : ℚ)/2 > 9/10) := by
  exact ⟨rfl, by decide⟩

theorem mem_vacc_indices (L : ℕ) (x : ℤ) (hx : x < 2 * L) :
    x ∈ (List.range L).map (fun i => ((1 + i * 2 : ℕ) : ℤ)) ↔ (0 < x ∧ x % 2 = 1) := by
  simp only [List.mem_map, List.mem_range]
  constructor
  · rintro ⟨i, hi, rfl⟩
    constructor <;> omega
  · rintro ⟨h0, h2⟩
    refine ⟨(x.toNat - 1) / 2, ?_, ?_⟩ <;> omega

/-- Claim C6 (confirmed, assuming the paired-banding well-formedness
`idx < 2 * len(VaccTreatmentBreaks)` that the externally built age-group breaks
guarantee): `doVaccine` assigns `vaccineStatus = 1` to host `i` exactly when its
vaccine age-group index is odd (i.e. in `{1, 3, 5, ...}`) *and* its coverage draw
at index `(idx + 1) // 2 - 1` selects it, leaving the status unchanged otherwise;
and `vaccCount` grows by the count of eligible hosts plus the count of
coverage-selected hosts — not by the size of their intersection. -/
theorem doVaccine_spec (p : Parameters) (sd : SDEquilibrium) (t : ℚ) (cov : List ℚ)
    (uVacc : ℕ → ℚ) (i : ℕ)
    (hlen : sd.VaccTreatmentAgeGroupIndices.length = p.N)
    (hsv : sd.sv.length = p.N)
    (hi : i < p.N)
    (hidx : ∀ x ∈ sd.VaccTreatmentAgeGroupIndices, x < 2 * p.VaccTreatmentBreaks.length) :
    ((doVaccine p sd t cov uVacc).sv.getD i 0 =
      if (0 < sd.VaccTreatmentAgeGroupIndices.getD i 0 ∧
            sd.VaccTreatmentAgeGroupIndices.getD i 0 % 2 = 1) ∧
          uVacc i < pyGet cov ((sd.VaccTreatmentAgeGroupIndices.getD i 0 + 1).fdiv 2 - 1)
        then 1 else sd.sv.getD i 0) ∧
    (doVaccine p sd t cov uVacc).vaccCount =
      sd.vaccCount
        + (((List.range p.N).countP (fun j =>
            decide (0 < sd.VaccTreatmentAgeGroupIndices.getD j 0 ∧
              sd.VaccTreatmentAgeGroupIndices.getD j 0 % 2 = 1))) : ℤ)
        + (((List.range p.N).countP (fun j =>
            decide (uVacc j <
              pyGet cov ((sd.VaccTreatmentAgeGroupIndices.getD j 0 + 1).fdiv 2 - 1)))) : ℤ) := by
  have hmem : ∀ j, j < p.N →
      (sd.VaccTreatmentAgeGroupIndices.getD j 0 ∈
        (List.range p.VaccTreatmentBreaks.length).map (fun k => ((1 + k * 2 : ℕ) : ℤ)) ↔
       (0 < sd.VaccTreatmentAgeGroupIndices.getD j 0 ∧
        sd.VaccTreatmentAgeGroupIndices.getD j 0 % 2 = 1)) := by
    intro j hj
    have hjl : j < sd.VaccTreatmentAgeGroupIndices.length := by omega
    refine mem_vacc_indices _ _ (hidx _ ?_)
    rw [List.getD_eq_getElem _ 0 hjl]
    exact List.getElem_mem hjl
  have htemp : ∀ j, j < p.N →
      ((sd.VaccTreatmentAgeGroupIndices.map (fun x => (x + 1).fdiv 2 - 1)).getD j 0 =
        (sd.VaccTreatmentAgeGroupIndices.getD j 0 + 1).fdiv 2 - 1) := by
    intro j hj
    exact getD_map_of_lt _ _ j 0 0 (by omega)
  constructor
  · simp only [doVaccine]
    rw [getD_mapIdx_of_lt _ _ i 0 0 (by omega)]
    simp only [htemp i hi, Bool.and_eq_true, decide_eq_true_eq]
    exact if_congr (and_congr_left (fun _ => hmem i hi)) rfl rfl
  · simp only [doVaccine, hlen]
    have h1 : (List.range p.N).countP
        (fun j => decide (sd.VaccTreatmentAgeGroupIndices.getD j 0 ∈
          (List.range p.VaccTreatmentBreaks.length).map (fun k => ((1 + k * 2 : ℕ) : ℤ)))) =
        (List.range p.N).countP (fun j =>
          decide (0 < sd.VaccTreatmentAgeGroupIndices.getD j 0 ∧
            sd.VaccTreatmentAgeGroupIndices.getD j 0 % 2 = 1)) := by
      refine List.countP_congr ?_
      intro j hj
      simp only [decide_eq_true_eq]
      exact hmem j (List.mem_range.mp hj)
    have h2 : (List.range p.N).countP
        (fun j => decide (uVacc j < pyGet cov
          ((sd.VaccTreatmentAgeGroupIndices.map (fun x => (x + 1).fdiv 2 - 1)).getD j 0))) =
        (List.range p.N).countP (fun j =>
          decide (uVacc j <
            pyGet cov ((sd.VaccTreatmentAgeGroupIndices.getD j 0 + 1).fdiv 2 - 1))) := by
      refine List.countP_congr ?_
      intro j hj
      simp only [decide_eq_true_eq]
      rw [htemp j (List.mem_range.mp hj)]
    rw [h1, h2]

/-- Witness for `doVaccine_spec`: a concrete two-host call with age-group indices
`[1, 2]` (host 0 eligible, host 1 not). -/
theorem doVaccine_spec_witness :
    ((doVaccine pC6 sdC6 0 [1] (fun _ => 0)).sv.getD 0 0 =
      if (0 < sdC6.VaccTreatmentAgeGroupIndices.getD 0 0 ∧
            sdC6.VaccTreatmentAgeGroupIndices.getD 0 0 % 2 = 1) ∧
          (0 : ℚ) < pyGet [1] ((sdC6.VaccTreatmentAgeGroupIndices.getD 0 0 + 1).fdiv 2 - 1)
        then 1 else sdC6.sv.getD 0 0) ∧
    (doVaccine pC6 sdC6 0 [1] (fun _ => 0)).vaccCount =
      sdC6.vaccCount
        + (((List.range pC6.N).countP (fun j =>
            decide (0 < sdC6.VaccTreatmentAgeGroupIndices.getD j 0 ∧
              sdC6.VaccTreatmentAgeGroupIndices.getD j 0 % 2 = 1))) : ℤ)
        + (((List.range pC6.N).countP (fun j =>
            decide ((0 : ℚ) <
              pyGet [1] ((sdC6.VaccTreatmentAgeGroupIndices.getD j 0 + 1).fdiv 2 - 1)))) : ℤ) :=
  doVaccine_spec pC6 sdC6 0 [1] (fun _ => 0) 0 (by decide) (by decide) (by decide)
    (by decide)

/-- Claim C7 (confirmed): for every host `i`, if `deathDate[i] < t` held before
`doDeath` then afterwards both worm counts are 0, the vaccine status is reset to 0,
`birthDate[i] = t - 0.001`, and (since every lifespan draw is positive)
`deathDate[i] > t`; a host with `deathDate[i] ≥ t` keeps its worm counts,
susceptibility, compliance and demographic dates; and all three categorical
age-group index arrays are recomputed for every host by bucketing `t - birthDate`
against the configured breakpoints. -/
theorem doDeath_spec (p : Parameters) (sd : SDEquilibrium) (t : ℚ)
    (gammaDraw lifespanDraw uAdh uComp : ℕ → ℚ) (i : ℕ)
    (hlife : ∀ r, 0 < lifespanDraw r)
    (hi : i < sd.demography.deathDate.length)
    (hT : sd.worms.total.length = sd.demography.deathDate.length)
    (hF : sd.worms.female.length = sd.demography.deathDate.length)
    (hS : sd.sv.length = sd.demography.deathDate.length)
    (hSi : sd.si.length = sd.demography.deathDate.length)
    (hC : sd.compliers.length = sd.demography.deathDate.length)
    (hB : sd.demography.birthDate.length = sd.demography.deathDate.length) :
    (sd.demography.deathDate.getD i 0 < t →
      (doDeath p sd t gammaDraw lifespanDraw uAdh uComp).worms.total.getD i 0 = 0 ∧
      (doDeath p sd t gammaDraw lifespanDraw uAdh uComp).worms.female.getD i 0 = 0 ∧
      (doDeath p sd t gammaDraw lifespanDraw uAdh uComp).sv.getD i 0 = 0 ∧
      (doDeath p sd t gammaDraw lifespanDraw uAdh uComp).demography.birthDate.getD i 0 =
        t - 1 / 1000 ∧
      t < (doDeath p sd t gammaDraw lifespanDraw uAdh uComp).demography.deathDate.getD i 0) ∧
    (t ≤ sd.demography.deathDate.getD i 0 →
      (doDeath p sd t gammaDraw lifespanDraw uAdh uComp).worms.total.getD i 0 =
        sd.worms.total.getD i 0 ∧
      (doDeath p sd t gammaDraw lifespanDraw uAdh uComp).worms.female.getD i 0 =
        sd.worms.female.getD i 0 ∧
      (doDeath p sd t gammaDraw lifespanDraw uAdh uComp).si.getD i 0 = sd.si.getD i 0 ∧
      (doDeath p sd t gammaDraw lifespanDraw uAdh uComp).compliers.getD i false =
        sd.compliers.getD i false ∧
      (doDeath p sd t gammaDraw lifespanDraw uAdh uComp).demography.birthDate.getD i 0 =
        sd.demography.birthDate.getD i 0 ∧
      (doDeath p sd t gammaDraw lifespanDraw uAdh uComp).demography.deathDate.getD i 0 =
        sd.demography.deathDate.getD i 0) ∧
    (doDeath p sd t gammaDraw lifespanDraw uAdh uComp).contactAgeGroupIndices =
      (doDeath p sd t gammaDraw lifespanDraw uAdh uComp).demography.birthDate.map
        (fun b => npDigitize (t - b) p.contactAgeGroupBreaks - 1) ∧
    (doDeath p sd t gammaDraw lifespanDraw uAdh uComp).treatmentAgeGroupIndices =
      (doDeath p sd t gammaDraw lifespanDraw uAdh uComp).demography.birthDate.map
        (fun b => npDigitize (t - b) p.treatmentAgeGroupBreaks - 1) ∧
    (doDeath p sd t gammaDraw lifespanDraw uAdh uComp).VaccTreatmentAgeGroupIndices =
      (doDeath p sd t gammaDraw lifespanDraw uAdh uComp).demography.birthDate.map
        (fun b => npDigitize (t - b) p.VaccTreatmentAgeGroupBreaks - 1) := by
  refine ⟨?_, ?_, ?_, ?_, ?_⟩
  · intro hdead
    have hb : decide (sd.demography.deathDate.getD i 0 < t) = true := decide_eq_true hdead
    simp only [doDeath]
    rw [getD_mapIdx_of_lt _ _ i (0 : ℤ) (0 : ℤ) (by omega),
      getD_mapIdx_of_lt _ _ i (0 : ℤ) (0 : ℤ) (by omega),
      getD_mapIdx_of_lt _ _ i (0 : ℕ) (0 : ℕ) (by omega),
      getD_mapIdx_of_lt _ _ i (0 : ℚ) (0 : ℚ) (by omega),
      getD_mapIdx_of_lt _ _ i (0 : ℚ) (0 : ℚ) (by omega)]
    rw [if_pos hb, if_pos hb, if_pos hb, if_pos hb, if_pos hb]
    have h := hlife ((List.range i).countP
      (fun j => decide (sd.demography.deathDate.getD j 0 < t)))
    exact ⟨rfl, rfl, rfl, rfl, by linarith⟩
  · intro halive
    have hb : decide (sd.demography.deathDate.getD i 0 < t) = false :=
      decide_eq_false (not_lt.mpr halive)
    have hc : ¬(decide (sd.demography.deathDate.getD i 0 < t) = true) := by
      rw [hb]
      exact Bool.false_ne_true
    simp only [doDeath]
    rw [getD_mapIdx_of_lt _ _ i (0 : ℤ) (0 : ℤ) (by omega),
      getD_mapIdx_of_lt _ _ i (0 : ℤ) (0 : ℤ) (by omega),
      getD_mapIdx_of_lt _ _ i (0 : ℚ) (0 : ℚ) (by omega),
      getD_mapIdx_of_lt _ _ i false false (by omega),
      getD_mapIdx_of_lt _ _ i (0 : ℚ) (0 : ℚ) (by omega),
      getD_mapIdx_of_lt _ _ i (0 : ℚ) (0 : ℚ) (by omega)]
    rw [if_neg hc, if_neg hc, if_neg hc, if_neg hc, if_neg hc, if_neg hc]
    exact ⟨rfl, rfl, rfl, rfl, rfl, rfl⟩
  · rfl
  · rfl
  · rfl

/-- Witness for `doDeath_spec`: two hosts at `t = 0`, host 0 already dead
(`deathDate = -1 < 0`), host 1 alive (`deathDate = 5`). -/
theorem doDeath_spec_witness :
    ((doDeath pC7 sdC7 0 (fun _ => 1) (fun _ => 10) (fun _ => 0) (fun _ => 1)).worms.total.getD
        0 0 = 0 ∧
      (doDeath pC7 sdC7 0 (fun _ => 1) (fun _ => 10) (fun _ => 0)
          (fun _ => 1)).worms.female.getD 0 0 = 0 ∧
      (doDeath pC7 sdC7 0 (fun _ => 1) (fun _ => 10) (fun _ => 0) (fun _ => 1)).sv.getD 0 0 =
        0 ∧
      (doDeath pC7 sdC7 0 (fun _ => 1) (fun _ => 10) (fun _ => 0)
          (fun _ => 1)).demography.birthDate.getD 0 0 = 0 - 1 / 1000 ∧
      (0 : ℚ) < (doDeath pC7 sdC7 0 (fun _ => 1) (fun _ => 10) (fun _ => 0)
          (fun _ => 1)).demography.deathDate.getD 0 0) ∧
    ((doDeath pC7 sdC7 0 (fun _ => 1) (fun _ => 10) (fun _ => 0) (fun _ => 1)).worms.total.getD
        1 0 = sdC7.worms.total.getD 1 0 ∧
      (doDeath pC7 sdC7 0 (fun _ => 1) (fun _ => 10) (fun _ => 0)
          (fun _ => 1)).worms.female.getD 1 0 = sdC7.worms.female.getD 1 0 ∧
      (doDeath pC7 sdC7 0 (fun _ => 1) (fun _ => 10) (fun _ => 0) (fun _ => 1)).si.getD 1 0 =
        sdC7.si.getD 1 0 ∧
      (doDeath pC7 sdC7 0 (fun _ => 1) (fun _ => 10) (fun _ => 0)
          (fun _ => 1)).compliers.getD 1 false = sdC7.compliers.getD 1 false ∧
      (doDeath pC7 sdC7 0 (fun _ => 1) (fun _ => 10) (fun _ => 0)
          (fun _ => 1)).demography.birthDate.getD 1 0 = sdC7.demography.birthDate.getD 1 0 ∧
      (doDeath pC7 sdC7 0 (fun _ => 1) (fun _ => 10) (fun _ => 0)
          (fun _ => 1)).demography.deathDate.getD 1 0 = sdC7.demography.deathDate.getD 1 0) := by
  refine ⟨(doDeath_spec pC7 sdC7 0 (fun _ => 1) (fun _ => 10) (fun _ => 0) (fun _ => 1) 0
      (fun _ => by norm_num) (by decide) (by decide) (by decide) (by decide) (by decide)
      (by decide) (by decide)).1 (by decide),
    (doDeath_spec pC7 sdC7 0 (fun _ => 1) (fun _ => 10) (fun _ => 0) (fun _ => 1) 1
      (fun _ => by norm_num) (by decide) (by decide) (by decide) (by decide) (by decide)
      (by decide) (by decide)).2.1 (by decide)⟩

/-- Claim C8 (confirmed, for every recognized reproduction-function configuration,
with `np.exp` abstracted as a function `expf` satisfying the corresponding real
facts `expf 0 = 1` and `0 ≤ expf (-decay * dt) ≤ 1`): `doFreeLive` with `dt = 0`
returns the state completely unchanged, and whenever the computed production rate
and the incoming reservoir are non-negative (and the decay rate is positive), the
reservoir stays non-negative. -/
theorem doFreeLive_invariants (expf : ℚ → ℚ) (p : Parameters) (sd : SDEquilibrium)
    (dt : ℚ) (pfw : List ℤ) (sd' : SDEquilibrium)
    (hp : productiveFemaleWorms p sd = some pfw) :
    (expf 0 = 1 → doFreeLive expf p sd 0 = Except.ok sd) ∧
    (doFreeLive expf p sd dt = Except.ok sd' →
      0 ≤ sd.freeLiving → 0 ≤ eggsProdRate expf p sd pfw →
      0 ≤ expf (-p.LDecayRate * dt) → expf (-p.LDecayRate * dt) ≤ 1 →
      0 < p.LDecayRate → 0 ≤ sd'.freeLiving) := by
  constructor
  · intro h1
    simp only [doFreeLive, hp]
    have h0 : -p.LDecayRate * 0 = 0 := by ring
    rw [h0, h1]
    have hfl : sd.freeLiving * 1 + eggsProdRate expf p sd pfw * (1 - 1) / p.LDecayRate =
        sd.freeLiving := by ring
    rw [hfl]
  · intro heq h0 hrate he0 he1 hdecay
    simp only [doFreeLive, hp] at heq
    injection heq with h
    rw [← h]
    have h1e : 0 ≤ 1 - expf (-p.LDecayRate * dt) := by linarith
    exact add_nonneg (mul_nonneg h0 he0)
      (div_nonneg (mul_nonneg hrate h1e) (le_of_lt hdecay))

/-- Witness for `doFreeLive_invariants` with the constant `expf = 1` (which is the
real exponential at 0), the monogamous reproduction function and `dt = 0`. -/
theorem doFreeLive_invariants_witness :
    doFreeLive (fun _ => 1) pC8 sdC8 0 = Except.ok sdC8 ∧ (0 : ℚ) ≤ sdC8.freeLiving := by
  have h := doFreeLive_invariants (fun _ => 1) pC8 sdC8 0 [1] sdC8 (by decide)
  have h1 := h.1 rfl
  exact ⟨h1, h.2 h1 (by decide) (by decide) (by decide) (by decide) (by decide)⟩

/-- Claim C9 (confirmed): both survey operators raise the invalid-argument error
`nSamples < 1` exactly when `nSamples < 1`, before touching any state (the error
result carries no mutated state), and never raise it for `nSamples ≥ 1`. -/
theorem surveys_nSamples_guard (sd : SDEquilibrium) (p : Parameters) (t : ℚ)
    (sampleSize nSamples : ℤ) (eggDraw : ℕ → List ℚ) (choice : ℕ → ℕ) :
    (nSamples < 1 →
      conductSurvey sd p t sampleSize nSamples eggDraw choice = Except.error "nSamples < 1" ∧
      conductSurveyTwo sd p t sampleSize nSamples eggDraw choice =
        Except.error "nSamples < 1") ∧
    (1 ≤ nSamples →
      conductSurvey sd p t sampleSize nSamples eggDraw choice ≠ Except.error "nSamples < 1" ∧
      conductSurveyTwo sd p t sampleSize nSamples eggDraw choice ≠
        Except.error "nSamples < 1") := by
  constructor
  · intro h
    constructor
    · simp only [conductSurvey]
      rw [if_pos h]
    · simp only [conductSurveyTwo]
      rw [if_pos h]
  · intro h
    have hn : ¬(nSamples < 1) := by omega
    constructor
    · simp only [conductSurvey]
      rw [if_neg hn]
      split
      · intro hc
        simp at hc
      · intro hc
        simp at hc
    · simp only [conductSurveyTwo]
      rw [if_neg hn]
      split
      · intro hc
        simp at hc
      · intro hc
        simp at hc

/-- Witness for `surveys_nSamples_guard`: with `nSamples = 0` both surveys return
the invalid-argument error; with `nSamples = 1` a concrete `conductSurvey` call
returns a successful result instead. -/
theorem surveys_nSamples_guard_witness :
    conductSurvey sdC9 pC9 0 1 0 (fun _ => [(0 : ℚ)]) (fun _ => 0) =
      Except.error "nSamples < 1" ∧
    conductSurveyTwo sdC9 pC9 0 1 0 (fun _ => [(0 : ℚ)]) (fun _ => 0) =
      Except.error "nSamples < 1" ∧
    conductSurvey sdC9 pC9 0 1 1 (fun _ => [(0 : ℚ)]) (fun _ => 0) ≠
      Except.error "nSamples < 1" :=
  ⟨((surveys_nSamples_guard sdC9 pC9 0 1 0 (fun _ => [(0 : ℚ)]) (fun _ => 0)).1
      (by decide)).1,
   ((surveys_nSamples_guard sdC9 pC9 0 1 0 (fun _ => [(0 : ℚ)]) (fun _ => 0)).1
      (by decide)).2,
   ((surveys_nSamples_guard sdC9 pC9 0 1 1 (fun _ => [(0 : ℚ)]) (fun _ => 0)).2
      (by decide)).1⟩

/-- Claim C10 (confirmed): a successful `conductSurvey` mutates the population
state only by incrementing `numSurvey` by exactly one, and a successful
`conductSurveyTwo` only by incrementing `numSurveyTwo` by exactly one; every other
field (worms, vaccination, demography, reservoir, counters, audit logs) is
unchanged. -/
theorem surveys_frame (sd : SDEquilibrium) (p : Parameters) (t : ℚ)
    (sampleSize nSamples : ℤ) (eggDraw : ℕ → List ℚ) (choice : ℕ → ℕ)
    (sd₁ sd₂ : SDEquilibrium) (prev₁ prev₂ : ℚ) :
    (conductSurvey sd p t sampleSize nSamples eggDraw choice = Except.ok (sd₁, prev₁) →
      sd₁ = { sd with numSurvey := sd.numSurvey + 1 }) ∧
    (conductSurveyTwo sd p t sampleSize nSamples eggDraw choice = Except.ok (sd₂, prev₂) →
      sd₂ = { sd with numSurveyTwo := sd.numSurveyTwo + 1 }) := by
  constructor
  · intro h
    simp only [conductSurvey] at h
    split at h
    · exact absurd h (by simp)
    · split at h
      · exact absurd h (by simp)
      · simp only [Except.ok.injEq, Prod.mk.injEq] at h
        exact h.1.symm
  · intro h
    simp only [conductSurveyTwo] at h
    split at h
    · exact absurd h (by simp)
    · split at h
      · exact absurd h (by simp)
      · simp only [Except.ok.injEq, Prod.mk.injEq] at h
        exact h.1.symm

/-- Witness for `surveys_frame`: a concrete one-host `conductSurvey` call whose
returned state is exactly the input state with `numSurvey` incremented. -/
theorem surveys_frame_witness :
    ({ sdC10 with numSurvey := sdC10.numSurvey + 1 } : SDEquilibrium) =
      { sdC10 with numSurvey := sdC10.numSurvey + 1 } ∧
    conductSurvey sdC10 pC10 0 1 1 (fun _ => [(0 : ℚ)]) (fun _ => 0) =
      Except.ok ({ sdC10 with numSurvey := sdC10.numSurvey + 1 }, 0) :=
  ⟨(surveys_frame sdC10 pC10 0 1 1 (fun _ => [(0 : ℚ)]) (fun _ => 0)
      { sdC10 with numSurvey := sdC10.numSurvey + 1 } sdC10 0 0).1 (by exact rfl),
   by exact rfl⟩
